import Mathlib

/-!
Verification of the buttonshutdown daemon (src/main.cpp) against its
natural-language specification.

The program is embedded shallowly as trace-producing functions: each of the
three C routines (main, Daemon_Stop, Button_Pressed) becomes a Lean function
from an explicit environment (the results the operating system and hardware
would return) to the list of observable events the routine performs, paired
with how the routine terminates.  The translation follows the C source line
by line; all constants (paths, pin number, exit codes, file mode) are the
ones in the source.
-/

namespace ButtonShutdown

/-- Exit status for success, as in the C standard library. -/
def EXIT_SUCCESS : Nat := 0

/-- Exit status for failure, as in the C standard library. -/
def EXIT_FAILURE : Nat := 1

/-- Numeric value of the POSIX termination signal registered at main.cpp:125. -/
def SIGTERM : Nat := 15

/-- PID_FILE macro from main.cpp:26. -/
def PID_FILE : String := "/var/run/buttonshutdown-daemon.pid"

/-- The wiringPi pin number monitored (main.cpp:27). -/
def PIN : Nat := 0

/-- Fixed path of the helper executable checked at main.cpp:54. -/
def GPIO_HELPER : String := "/usr/local/bin/gpio"

/-- The exact shell command run at main.cpp:174 to disarm the interrupt. -/
def DISARM_CMD : String := "/usr/local/bin/gpio edge 0 none"

/-- syslog severities used by the program. -/
inductive Severity
  | info
  | err
  deriving DecidableEq, Repr

/-- The log messages the program can emit, with their numeric payloads. -/
inductive LogMsg
  | daemonStarting
  | notRoot
  | gpioHelperMissing
  | pidOpenFailed
  | pidLockFailed
  | wiringPiInitFailed
  | isrRegistrationFailed
  | shuttingDown
  | restarting
  | poweroffFailed (errno : Nat)
  | shutdownFailed (errno : Nat)
  | stoppingDaemon
  deriving DecidableEq, Repr

/-- Observable events: each constructor is one external call the C code makes. -/
inductive Event
  | log (sev : Severity) (msg : LogMsg)
  | statCheck (path : String)
  | openFile (path : String) (mode : Nat)
  | lockfTry (path : String)
  | forkCall
  | writeFile (path : String) (content : String)
  | umaskCall (mask : Nat)
  | setsidCall
  | chdirCall (path : String)
  | closeFd (fd : Nat)
  | installHandler (signum : Nat)
  | wiringPiSetupCall
  | pinModeInput (pin : Nat)
  | pullUpDnDown (pin : Nat)
  | registerRisingISR (pin : Nat)
  | systemCmd (cmd : String)
  | sleepCall (secs : Nat)
  | digitalReadCall (pin : Nat)
  | execlCall (path : String) (argv : List String)
  deriving DecidableEq, Repr

/-- How the main routine terminates: an exit call, or the endless idle loop. -/
inductive MainOutcome
  | exited (code : Nat)
  | idleLoop
  deriving DecidableEq, Repr

/-- Environment for main: the results of the system calls it makes. -/
structure Env where
  euid : Nat
  gpioHelperExists : Bool
  openSucceeds : Bool
  lockSucceeds : Bool
  forkResult : Int
  pid : Nat
  setsidSucceeds : Bool
  chdirSucceeds : Bool
  wiringPiSetupSucceeds : Bool
  isrSucceeds : Bool
  deriving DecidableEq, Repr

/-- Shallow embedding of main (main.cpp:38-157), line by line. -/
def mainRun (env : Env) : List Event × MainOutcome :=
  -- main.cpp:41-43 logging setup and startup message
  let t := [Event.log .info .daemonStarting]
  -- main.cpp:46-50 privilege gate
  if env.euid ≠ 0 then
    (t ++ [Event.log .err .notRoot], .exited EXIT_FAILURE)
  else
    -- main.cpp:53-58 helper existence check
    let t := t ++ [Event.statCheck GPIO_HELPER]
    if !env.gpioHelperExists then
      (t ++ [Event.log .err .gpioHelperMissing], .exited EXIT_FAILURE)
    else
      -- main.cpp:68-75 open PID lock file, mode 0644
      let t := t ++ [Event.openFile PID_FILE 0o644]
      if !env.openSucceeds then
        (t ++ [Event.log .err .pidOpenFailed], .exited EXIT_FAILURE)
      else
        -- main.cpp:78-83 advisory lock attempt
        let t := t ++ [Event.lockfTry PID_FILE]
        if !env.lockSucceeds then
          (t ++ [Event.log .err .pidLockFailed], .exited EXIT_FAILURE)
        else
          -- main.cpp:89-96 fork, parent exits
          let t := t ++ [Event.forkCall]
          if env.forkResult < 0 then
            (t, .exited EXIT_FAILURE)
          else if env.forkResult > 0 then
            (t, .exited EXIT_SUCCESS)
          else
            -- main.cpp:99-103 format own pid and write it to the lock file
            let t := t ++ [Event.writeFile PID_FILE (toString env.pid ++ "\n")]
            -- main.cpp:106 umask(0)
            let t := t ++ [Event.umaskCall 0]
            -- main.cpp:109-111 setsid
            let t := t ++ [Event.setsidCall]
            if !env.setsidSucceeds then
              (t, .exited EXIT_FAILURE)
            else
              -- main.cpp:114-115 chdir to filesystem root
              let t := t ++ [Event.chdirCall "/"]
              if !env.chdirSucceeds then
                (t, .exited EXIT_FAILURE)
              else
                -- main.cpp:118-120 close stdin, stdout, stderr
                let t := t ++ [Event.closeFd 0, Event.closeFd 1, Event.closeFd 2]
                -- main.cpp:125 install SIGTERM handler
                let t := t ++ [Event.installHandler SIGTERM]
                -- main.cpp:128-132 wiringPi init
                let t := t ++ [Event.wiringPiSetupCall]
                if !env.wiringPiSetupSucceeds then
                  (t ++ [Event.log .err .wiringPiInitFailed], .exited EXIT_FAILURE)
                else
                  -- main.cpp:135-141 pin mode, pull-down, rising-edge ISR
                  let t := t ++ [Event.pinModeInput PIN, Event.pullUpDnDown PIN,
                                 Event.registerRisingISR PIN]
                  if !env.isrSucceeds then
                    (t ++ [Event.log .err .isrRegistrationFailed], .exited EXIT_FAILURE)
                  else
                    -- main.cpp:149-156 the idle heartbeat loop
                    (t, .idleLoop)

/-- Shallow embedding of Daemon_Stop (main.cpp:159-164): the SIGTERM handler. -/
def Daemon_Stop (signum : Nat) : List Event × MainOutcome :=
  ([Event.log .info .stoppingDaemon], .exited EXIT_SUCCESS)

/-- Digital pin levels, as read by digitalRead. -/
inductive PinLevel
  | low
  | high
  deriving DecidableEq, Repr

/-- The two privileged actions of the spec Executor. -/
inductive Action
  | powerOff
  | restart
  deriving DecidableEq, Repr

/-- The Privileged Action Executor: the exact execl calls at main.cpp:184 and
main.cpp:194, keyed by action kind. -/
def Execute : Action → Event
  | .powerOff => Event.execlCall "/sbin/poweroff" ["poweroff"]
  | .restart => Event.execlCall "/sbin/shutdown" ["shutdown", "-r", "now"]

/-- Environment for Button_Pressed: what the hardware and OS return. -/
structure BtnEnv where
  pinRead : PinLevel
  disarmResult : Int
  execlFails : Bool
  errnoVal : Nat
  deriving DecidableEq, Repr

/-- How Button_Pressed terminates: process image replaced by execl, an exit
call, or a normal return to the caller (which the code never performs). -/
inductive BtnOutcome
  | replaced (path : String) (argv : List String)
  | exited (code : Nat)
  | returned
  deriving DecidableEq, Repr

/-- Shallow embedding of Button_Pressed (main.cpp:166-201), line by line. -/
def Button_Pressed (env : BtnEnv) : List Event × BtnOutcome :=
  -- main.cpp:174 disarm further interrupts via the gpio helper;
  -- the result of system() is not inspected by the code
  let t := [Event.systemCmd DISARM_CMD]
  -- main.cpp:177 the 2-second classification delay
  let t := t ++ [Event.sleepCall 2]
  -- main.cpp:179 sample the pin once
  let t := t ++ [Event.digitalReadCall PIN]
  match env.pinRead with
  | .low =>
      -- main.cpp:181-189 shutdown branch
      let t := t ++ [Event.log .info .shuttingDown, Execute .powerOff]
      if env.execlFails then
        (t ++ [Event.log .err (.poweroffFailed env.errnoVal)], .exited EXIT_SUCCESS)
      else
        (t, .replaced "/sbin/poweroff" ["poweroff"])
  | .high =>
      -- main.cpp:191-197 restart branch
      let t := t ++ [Event.log .info .restarting, Execute .restart]
      if env.execlFails then
        (t ++ [Event.log .err (.shutdownFailed env.errnoVal)], .exited EXIT_SUCCESS)
      else
        (t, .replaced "/sbin/shutdown" ["shutdown", "-r", "now"])

/-- Asynchronous SIGTERM delivery: if the handler is installed the handler
runs; otherwise default disposition kills the process. -/
inductive SigDelivery
  | handlerRuns (trace : List Event) (outcome : MainOutcome)
  | defaultTerminated
  deriving DecidableEq, Repr

/-- Deliver SIGTERM given whether the Daemon_Stop handler is installed. -/
def deliverSigterm (handlerInstalled : Bool) : SigDelivery :=
  if handlerInstalled then
    .handlerRuns (Daemon_Stop SIGTERM).1 (Daemon_Stop SIGTERM).2
  else
    .defaultTerminated

/-- Event matcher: a pin sample. -/
def isDigitalRead : Event → Bool
  | .digitalReadCall _ => true
  | _ => false

/-- Event matcher: any write to a file. -/
def isWriteEvent : Event → Bool
  | .writeFile _ _ => true
  | _ => false

/-- Event matcher: any open of a file. -/
def isOpenEvent : Event → Bool
  | .openFile _ _ => true
  | _ => false

/-- Event matcher: registering a rising-edge interrupt handler (arming). -/
def isArming : Event → Bool
  | .registerRisingISR _ => true
  | _ => false

/-- Event matcher: any external shell command. -/
def isSystemCmd : Event → Bool
  | .systemCmd _ => true
  | _ => false

/-- Event matcher: a log message (no filesystem or hardware effect). -/
def isLogEvent : Event → Bool
  | .log _ _ => true
  | _ => false

/-- Event matcher: an ERR-severity log. -/
def isLogErr : Event → Bool
  | .log .err _ => true
  | _ => false

/-- Event matcher: an ERR log reporting an execl failure with its errno. -/
def isExecFailLog : Event → Bool
  | .log .err (.poweroffFailed _) => true
  | .log .err (.shutdownFailed _) => true
  | _ => false

/-- Event matcher: a detachment step (new session, chdir to root, closing a
standard descriptor). -/
def isDetachment : Event → Bool
  | .setsidCall => true
  | .chdirCall _ => true
  | .closeFd _ => true
  | _ => false

/-- Event matcher: any filesystem or hardware side effect (everything except
logging). -/
def isSideEffect (e : Event) : Bool := !isLogEvent e

/-- Event matcher: button-processing work (disarm command, classification
delay, pin sample, executor invocation). -/
def isButtonProcessing : Event → Bool
  | .systemCmd _ => true
  | .sleepCall _ => true
  | .digitalReadCall _ => true
  | .execlCall _ _ => true
  | _ => false

/-- A concrete environment in which every startup step succeeds and fork
returns 0 (the child process), with pid 1234. -/
def envChild : Env := ⟨0, true, true, true, 0, 1234, true, true, true, true⟩

/-- C1: for every execution of the classifier, the pin is sampled exactly once
after the 2-second delay; the Executor is invoked with POWER_OFF when the
sample is LOW and with RESTART when it is HIGH; the two-valued pin enum is
exhaustive. -/
theorem C1_classification (env : BtnEnv) :
    (Button_Pressed env).1.filter isDigitalRead = [Event.digitalReadCall PIN] ∧
    (env.pinRead = PinLevel.low → Execute Action.powerOff ∈ (Button_Pressed env).1) ∧
    (env.pinRead = PinLevel.high → Execute Action.restart ∈ (Button_Pressed env).1) ∧
    (∀ l : PinLevel, l = PinLevel.low ∨ l = PinLevel.high) := by
  obtain ⟨p, r, e, n⟩ := env
  refine ⟨?_, ?_, ?_, fun l => by cases l <;> simp⟩ <;>
    cases p <;> cases e <;> simp [Button_Pressed, Execute, isDigitalRead, PIN]

/-- Witness for C1 at a concrete environment with a LOW sample. -/
theorem C1_classification_witness :
    Execute Action.powerOff ∈ (Button_Pressed ⟨PinLevel.low, 0, false, 0⟩).1 :=
  (C1_classification ⟨PinLevel.low, 0, false, 0⟩).2.1 rfl

/-- C2: the classifier disarms the interrupt source (the gpio helper command
setting edge mode to none) as its very first action, before the 2-second
delay, and no later event of the classifier arms the source again. -/
theorem C2_disarm_before_delay (env : BtnEnv) :
    (∃ rest, (Button_Pressed env).1 =
      Event.systemCmd DISARM_CMD :: Event.sleepCall 2 :: rest) ∧
    ((Button_Pressed env).1.drop 1).filter (fun e => isArming e || isSystemCmd e)
      = [] := by
  obtain ⟨p, r, e, n⟩ := env
  constructor
  · cases p <;> cases e <;> exact ⟨_, rfl⟩
  · cases p <;> cases e <;> simp [Button_Pressed, isArming, isSystemCmd, Execute]

/-- C3: when the process-image replacement fails (execl returns), the
classifier logs the failure at ERR severity with the numeric error and the
process exits with success status, on both the LOW and the HIGH branch. -/
theorem C3_exec_failure_fallback (env : BtnEnv) (h : env.execlFails = true) :
    (Button_Pressed env).2 = BtnOutcome.exited EXIT_SUCCESS ∧
    (env.pinRead = PinLevel.low →
      (Button_Pressed env).1.getLast? =
        some (Event.log Severity.err (LogMsg.poweroffFailed env.errnoVal))) ∧
    (env.pinRead = PinLevel.high →
      (Button_Pressed env).1.getLast? =
        some (Event.log Severity.err (LogMsg.shutdownFailed env.errnoVal))) := by
  obtain ⟨p, r, e, n⟩ := env
  cases h
  cases p <;> simp [Button_Pressed, Execute, EXIT_SUCCESS]

/-- Witness for C3 at a concrete environment where execl fails on LOW. -/
theorem C3_exec_failure_fallback_witness :
    (Button_Pressed ⟨PinLevel.low, 0, true, 2⟩).2 = BtnOutcome.exited EXIT_SUCCESS :=
  (C3_exec_failure_fallback ⟨PinLevel.low, 0, true, 2⟩ rfl).1

/-- C9: the classifier ignores the result of the external disarm command: the
trace and outcome are identical for any two disarm results, the classifier
still sleeps, samples and invokes the action, and every ERR log concerns an
execl failure, never the disarm. -/
theorem C9_disarm_result_ignored (p : PinLevel) (r₁ r₂ : Int) (e : Bool) (n : Nat) :
    Button_Pressed ⟨p, r₁, e, n⟩ = Button_Pressed ⟨p, r₂, e, n⟩ ∧
    Event.sleepCall 2 ∈ (Button_Pressed ⟨p, r₁, e, n⟩).1 ∧
    Event.digitalReadCall PIN ∈ (Button_Pressed ⟨p, r₁, e, n⟩).1 ∧
    ((Button_Pressed ⟨p, r₁, e, n⟩).1.filter isLogErr).all isExecFailLog = true := by
  cases p <;> cases e <;>
    simp [Button_Pressed, Execute, isLogErr, isExecFailLog, PIN]

/-- C10: the classifier never returns to its caller: every control path ends
either in process-image replacement or in an exit with success status. -/
theorem C10_never_returns (env : BtnEnv) :
    (Button_Pressed env).2 ≠ BtnOutcome.returned ∧
    ((Button_Pressed env).2 = BtnOutcome.exited EXIT_SUCCESS ∨
      ∃ path argv, (Button_Pressed env).2 = BtnOutcome.replaced path argv) := by
  obtain ⟨p, r, e, n⟩ := env
  cases p <;> cases e <;> simp [Button_Pressed, EXIT_SUCCESS]

/-- C4 counterexample: in the concrete child-process run the PID write (trace
index 5) happens strictly before the new session (index 7), and no detachment
step (setsid, chdir, closing a standard descriptor) occurs before the write —
the opposite order to the one the claim states. -/
theorem C4_counterexample :
    (mainRun envChild).1.get? 5 = some (Event.writeFile PID_FILE "1234\n") ∧
    (mainRun envChild).1.get? 7 = some Event.setsidCall ∧
    ((mainRun envChild).1.take 6).filter isDetachment = [] ∧
    Event.chdirCall "/" ∈ (mainRun envChild).1.drop 6 ∧
    Event.closeFd 0 ∈ (mainRun envChild).1.drop 6 := by
  refine ⟨rfl, rfl, rfl, ?_, ?_⟩ <;> decide

/-- C4 amended: the child writes its PID into the locked file exactly once,
immediately after forking and BEFORE detachment — before the new session,
the chdir to the root and the closing of the standard descriptors. -/
theorem C4_amended_write_then_detach (env : Env) (h0 : env.euid = 0)
    (h1 : env.gpioHelperExists = true) (h2 : env.openSucceeds = true)
    (h3 : env.lockSucceeds = true) (h4 : env.forkResult = 0) :
    (mainRun env).1.filter isWriteEvent =
      [Event.writeFile PID_FILE (toString env.pid ++ "\n")] ∧
    (mainRun env).1.get? 5 =
      some (Event.writeFile PID_FILE (toString env.pid ++ "\n")) ∧
    ((mainRun env).1.take 6).filter isDetachment = [] ∧
    (mainRun env).1.get? 7 = some Event.setsidCall := by
  obtain ⟨u, g, o, l, f, pid, s, c, w, i⟩ := env
  cases h0; cases h1; cases h2; cases h3; cases h4
  cases s <;> cases c <;> cases w <;> cases i <;>
    simp [mainRun, isWriteEvent, isDetachment, EXIT_FAILURE, PIN, List.get?]

/-- Witness for the amended C4 at the concrete child environment. -/
theorem C4_amended_write_then_detach_witness :
    (mainRun envChild).1.filter isWriteEvent =
      [Event.writeFile PID_FILE (toString envChild.pid ++ "\n")] :=
  (C4_amended_write_then_detach envChild rfl rfl rfl rfl rfl).1

/-- C5: a non-root invocation logs at ERR severity and exits with failure
status having performed no filesystem or hardware side effect at all — its
whole trace is the two log lines. -/
theorem C5_privilege_gate (env : Env) (h : env.euid ≠ 0) :
    mainRun env = ([Event.log Severity.info LogMsg.daemonStarting,
                    Event.log Severity.err LogMsg.notRoot],
                   MainOutcome.exited EXIT_FAILURE) ∧
    (mainRun env).1.filter isSideEffect = [] := by
  have h1 : mainRun env = ([Event.log Severity.info LogMsg.daemonStarting,
      Event.log Severity.err LogMsg.notRoot], MainOutcome.exited EXIT_FAILURE) := by
    simp [mainRun, h]
  exact ⟨h1, by rw [h1]; rfl⟩

/-- Witness for C5 at a concrete non-root environment. -/
theorem C5_privilege_gate_witness :
    mainRun ⟨1000, true, true, true, 0, 1, true, true, true, true⟩ =
      ([Event.log Severity.info LogMsg.daemonStarting,
        Event.log Severity.err LogMsg.notRoot],
       MainOutcome.exited EXIT_FAILURE) :=
  (C5_privilege_gate ⟨1000, true, true, true, 0, 1, true, true, true, true⟩
    (by decide)).1

/-- C6: the SIGTERM handler logs one INFO message and exits with success,
performing no button processing; delivery with the handler installed runs
exactly that handler; and in any successful startup the handler installation
(index 12) strictly precedes the arming of the interrupt (index 16), so the
handler is live before arming, during the idle wait and during the 2-second
classification delay. -/
theorem C6_signal_precedence (signum : Nat) (env : Env) (h0 : env.euid = 0)
    (h1 : env.gpioHelperExists = true) (h2 : env.openSucceeds = true)
    (h3 : env.lockSucceeds = true) (h4 : env.forkResult = 0)
    (h5 : env.setsidSucceeds = true) (h6 : env.chdirSucceeds = true)
    (h7 : env.wiringPiSetupSucceeds = true) (h8 : env.isrSucceeds = true) :
    Daemon_Stop signum = ([Event.log Severity.info LogMsg.stoppingDaemon],
                          MainOutcome.exited EXIT_SUCCESS) ∧
    (Daemon_Stop signum).1.filter isButtonProcessing = [] ∧
    deliverSigterm true = SigDelivery.handlerRuns
      [Event.log Severity.info LogMsg.stoppingDaemon]
      (MainOutcome.exited EXIT_SUCCESS) ∧
    (mainRun env).1.get? 12 = some (Event.installHandler SIGTERM) ∧
    (mainRun env).1.get? 16 = some (Event.registerRisingISR PIN) ∧
    (mainRun env).2 = MainOutcome.idleLoop := by
  obtain ⟨u, g, o, l, f, pid, s, c, w, i⟩ := env
  cases h0; cases h1; cases h2; cases h3; cases h4
  cases h5; cases h6; cases h7; cases h8
  exact ⟨rfl, rfl, rfl, rfl, rfl, rfl⟩

/-- Witness for C6 at signal 15 and the concrete child environment. -/
theorem C6_signal_precedence_witness :
    Daemon_Stop 15 = ([Event.log Severity.info LogMsg.stoppingDaemon],
                      MainOutcome.exited EXIT_SUCCESS) :=
  (C6_signal_precedence 15 envChild rfl rfl rfl rfl rfl rfl rfl rfl rfl).1

/-- C7: each of the five startup precondition violations — non-root caller,
missing helper executable, unopenable PID file, unavailable advisory lock,
GPIO-library init failure, interrupt-registration failure — is logged at ERR
severity as the last trace event and exits with failure status (non-zero). -/
theorem C7_fatal_startup_errors (env : Env) :
    (env.euid ≠ 0 →
      (mainRun env).2 = MainOutcome.exited EXIT_FAILURE ∧
      (mainRun env).1.getLast? = some (Event.log Severity.err LogMsg.notRoot)) ∧
    (env.euid = 0 → env.gpioHelperExists = false →
      (mainRun env).2 = MainOutcome.exited EXIT_FAILURE ∧
      (mainRun env).1.getLast? =
        some (Event.log Severity.err LogMsg.gpioHelperMissing)) ∧
    (env.euid = 0 → env.gpioHelperExists = true → env.openSucceeds = false →
      (mainRun env).2 = MainOutcome.exited EXIT_FAILURE ∧
      (mainRun env).1.getLast? =
        some (Event.log Severity.err LogMsg.pidOpenFailed)) ∧
    (env.euid = 0 → env.gpioHelperExists = true → env.openSucceeds = true →
      env.lockSucceeds = false →
      (mainRun env).2 = MainOutcome.exited EXIT_FAILURE ∧
      (mainRun env).1.getLast? =
        some (Event.log Severity.err LogMsg.pidLockFailed)) ∧
    (env.euid = 0 → env.gpioHelperExists = true → env.openSucceeds = true →
      env.lockSucceeds = true → env.forkResult = 0 → env.setsidSucceeds = true →
      env.chdirSucceeds = true → env.wiringPiSetupSucceeds = false →
      (mainRun env).2 = MainOutcome.exited EXIT_FAILURE ∧
      (mainRun env).1.getLast? =
        some (Event.log Severity.err LogMsg.wiringPiInitFailed)) ∧
    (env.euid = 0 → env.gpioHelperExists = true → env.openSucceeds = true →
      env.lockSucceeds = true → env.forkResult = 0 → env.setsidSucceeds = true →
      env.chdirSucceeds = true → env.wiringPiSetupSucceeds = true →
      env.isrSucceeds = false →
      (mainRun env).2 = MainOutcome.exited EXIT_FAILURE ∧
      (mainRun env).1.getLast? =
        some (Event.log Severity.err LogMsg.isrRegistrationFailed)) ∧
    EXIT_FAILURE ≠ 0 := by
  obtain ⟨u, g, o, l, f, pid, s, c, w, i⟩ := env
  refine ⟨fun h => ?_, fun h0 h => ?_, fun h0 h1 h => ?_, fun h0 h1 h2 h => ?_,
    fun h0 h1 h2 h3 h4 h5 h6 h => ?_,
    fun h0 h1 h2 h3 h4 h5 h6 h7 h => ?_, by decide⟩ <;>
    simp_all <;> simp [mainRun, *]

/-- Witness for C7 at a concrete environment with a missing helper. -/
theorem C7_fatal_startup_errors_witness :
    (mainRun ⟨0, false, true, true, 0, 1, true, true, true, true⟩).2 =
      MainOutcome.exited EXIT_FAILURE :=
  ((C7_fatal_startup_errors
    ⟨0, false, true, true, 0, 1, true, true, true, true⟩).2.1 rfl rfl).1

/-- C8: the PID lock file is opened once at its fixed path with mode 0644 and
receives exactly one write — the decimal pid followed by a newline; neither
the classifier nor the signal handler ever writes a file, so the file is
never written again for the life of the process. -/
theorem C8_pidfile_written_once (env : Env) (h0 : env.euid = 0)
    (h1 : env.gpioHelperExists = true) (h2 : env.openSucceeds = true)
    (h3 : env.lockSucceeds = true) (h4 : env.forkResult = 0) :
    (mainRun env).1.filter isOpenEvent = [Event.openFile PID_FILE 0o644] ∧
    (mainRun env).1.filter isWriteEvent =
      [Event.writeFile PID_FILE (toString env.pid ++ "\n")] ∧
    (∀ benv : BtnEnv, (Button_Pressed benv).1.filter isWriteEvent = []) ∧
    (∀ s : Nat, (Daemon_Stop s).1.filter isWriteEvent = []) := by
  obtain ⟨u, g, o, l, f, pid, s, c, w, i⟩ := env
  cases h0; cases h1; cases h2; cases h3; cases h4
  refine ⟨?_, ?_, fun benv => ?_, fun sg => rfl⟩
  · cases s <;> cases c <;> cases w <;> cases i <;>
      simp [mainRun, isOpenEvent, EXIT_FAILURE, PIN]
  · cases s <;> cases c <;> cases w <;> cases i <;>
      simp [mainRun, isWriteEvent, EXIT_FAILURE, PIN]
  · obtain ⟨p, r, e, n⟩ := benv
    cases p <;> cases e <;> simp [Button_Pressed, Execute, isWriteEvent]

/-- Witness for C8 at the concrete child environment. -/
theorem C8_pidfile_written_once_witness :
    (mainRun envChild).1.filter isOpenEvent = [Event.openFile PID_FILE 0o644] :=
  (C8_pidfile_written_once envChild rfl rfl rfl rfl rfl).1

end ButtonShutdown
